import Mathlib

/-!
Verification of the document-verification pipeline of the AI-Legal-Assistant
backend (`backend/app/agent/`): the LangGraph stage graph, the risk-scoring
and compliance-evaluation algorithms, and the human-in-the-loop (HITL) review
node.  Python floats are modelled as rationals, Python dicts as structures,
`None`-able values as `Option`, and the in-place mutations of
`apply_user_modifications` as explicit state passing.  Timestamp fields
(`created_at`, `updated_at`, `date`, `deadline`, `timestamp`) carry no logic
in the modelled code paths and are omitted from the records.
-/

namespace LegalAssistant

/-- Model of `RenewalDate` (backend/app/agent/state.py).  The `date` and
`clause_reference` fields are never read by the modelled code paths and are
omitted. -/
structure RenewalDate where
  description : String
  days_until : Int
  urgency : String
  deriving DecidableEq, Repr

/-- Model of `Obligation` (state.py); the `deadline` timestamp is omitted. -/
structure Obligation where
  clause_id : String
  requirement : String
  party : String
  status : String
  description : String
  deriving DecidableEq, Repr

/-- Model of `ComplianceItem` (state.py). -/
structure ComplianceItem where
  regulation : String
  requirement : String
  status : String
  gap : Option String
  severity : String
  deriving DecidableEq, Repr, Inhabited

/-- Model of `Risk` (state.py); `score` is a Python float, modelled as a
rational. -/
structure Risk where
  id : String
  category : String
  severity : String
  description : String
  mitigation : String
  score : ℚ
  deriving DecidableEq, Repr

/-- One entry of `modifications["risks"]` as consumed by
`apply_user_modifications` (hitl.py): every key is read with `.get`, hence
optional. -/
structure RiskMod where
  id : Option String := none
  severity : Option String := none
  description : Option String := none
  mitigation : Option String := none
  deriving DecidableEq, Repr

/-- One entry of `modifications["compliance_items"]` (hitl.py). -/
structure ComplianceMod where
  index : Option Int := none
  status : Option String := none
  gap : Option String := none
  deriving DecidableEq, Repr

/-- One entry of `modifications["obligations"]` (hitl.py). -/
structure ObligationMod where
  clause_id : Option String := none
  status : Option String := none
  description : Option String := none
  deriving DecidableEq, Repr

/-- The `modifications` dict of a `HumanFeedback` (hitl.py): a key is present
(`"risks" in modifications`) iff the corresponding field is `some`. -/
structure Modifications where
  risks : Option (List RiskMod) := none
  compliance_items : Option (List ComplianceMod) := none
  obligations : Option (List ObligationMod) := none
  notes : Option String := none
  deriving DecidableEq, Repr

/-- Model of `HumanFeedback` (state.py); the `timestamp` is omitted.  All
keys are read with `.get` in hitl.py, hence optional. -/
structure HumanFeedback where
  action : Option String := none
  comments : Option String := none
  modifications : Option Modifications := none
  deriving DecidableEq, Repr

/-- One heterogeneous element of a review-summary group (the Python code
slices risks, compliance items or obligations into the same `items` list). -/
inductive GroupItem where
  | riskItem (r : Risk)
  | compItem (c : ComplianceItem)
  | oblItem (o : Obligation)
  deriving DecidableEq, Repr

/-- One group dict appended to `review_items` by `prepare_review_summary`
(hitl.py). -/
structure ReviewGroup where
  type_ : String
  priority : String
  count : Nat
  description : String
  items : List GroupItem
  deriving DecidableEq, Repr

/-- An element of the state's `review_items` list.  The Python list is
untyped: `risk_assessment_node` appends strings while the pending branch of
`hitl_node` appends group dicts. -/
inductive ReviewEntry where
  | strItem (s : String)
  | group (g : ReviewGroup)
  deriving DecidableEq, Repr

/-- Return value of `prepare_review_summary` (hitl.py). -/
structure ReviewSummary where
  overall_risk_score : ℚ
  risk_level : String
  items : List ReviewGroup
  requires_attention : Bool
  deriving DecidableEq, Repr

/-- Top-level scalar fields of the `VerificationReport` built by
`report_generation_node` (report.py); the free-text `summary` and the
`sections` dict are pure presentation and are not carried in the embedding. -/
structure ReportTop where
  document_id : String
  risk_level : String
  overall_risk_score : ℚ
  deriving DecidableEq, Repr

/-- Projection of `DocumentVerificationState` (state.py) onto the fields the
modelled stages read or write.  List fields are the `Annotated[...,
operator.add]` channels; scalar fields are overwrite channels. -/
structure State where
  session_id : String
  risks : List Risk
  compliance_items : List ComplianceItem
  obligations : List Obligation
  renewal_dates : List RenewalDate
  review_items : List ReviewEntry
  messages : List String
  overall_risk_score : ℚ
  risk_level : String
  requires_review : Bool
  human_feedback : Option HumanFeedback
  current_step : String
  progress_percentage : Int
  status : String
  error_message : Option String
  verification_report : Option ReportTop
  deriving DecidableEq, Repr

/-- A partial update returned by a stage.  A field is `some` iff the Python
dict contains the key; list-valued keys are merged by `operator.add`
(append), every other key overwrites (state.py annotations). -/
structure Update where
  risks : Option (List Risk) := none
  compliance_items : Option (List ComplianceItem) := none
  obligations : Option (List Obligation) := none
  review_items : Option (List ReviewEntry) := none
  messages : Option (List String) := none
  overall_risk_score : Option ℚ := none
  risk_level : Option String := none
  requires_review : Option Bool := none
  current_step : Option String := none
  progress_percentage : Option Int := none
  status : Option String := none
  error_message : Option String := none
  verification_report : Option ReportTop := none
  deriving DecidableEq, Repr

/-- The per-field merge policy of state.py applied by LangGraph after a
stage returns: `operator.add` (append) for the annotated list channels,
overwrite for everything else. -/
def applyUpdate (s : State) (u : Update) : State :=
  { s with
    risks := s.risks ++ u.risks.getD []
    compliance_items := s.compliance_items ++ u.compliance_items.getD []
    obligations := s.obligations ++ u.obligations.getD []
    review_items := s.review_items ++ u.review_items.getD []
    messages := s.messages ++ u.messages.getD []
    overall_risk_score := u.overall_risk_score.getD s.overall_risk_score
    risk_level := u.risk_level.getD s.risk_level
    requires_review := u.requires_review.getD s.requires_review
    current_step := u.current_step.getD s.current_step
    progress_percentage := u.progress_percentage.getD s.progress_percentage
    status := u.status.getD s.status
    error_message := (u.error_message.map Option.some).getD s.error_message
    verification_report :=
      (u.verification_report.map Option.some).getD s.verification_report }

/-- Rendering of an optional string in a Python f-string: `None` prints as
the text `None`. -/
def optStr : Option String → String
  | some s => s
  | none => "None"

/-- Model of `determine_risk_level` (risk_assessment.py lines 250-259). -/
def determine_risk_level (score : ℚ) : String :=
  if 76 ≤ score then "critical"
  else if 51 ≤ score then "high"
  else if 26 ≤ score then "medium"
  else "low"

/-- Model of `calculate_urgency` (extraction.py lines 229-244). -/
def calculate_urgency (days_until : Int) : String :=
  if days_until < 0 then "critical"
  else if days_until ≤ 7 then "critical"
  else if days_until ≤ 30 then "high"
  else if days_until ≤ 90 then "medium"
  else "low"

/-- Model of `should_review` (graph.py lines 74-91): the predicate of the
sole conditional edge. -/
def should_review (s : State) : String :=
  if s.requires_review then "review"
  else if 75 < s.overall_risk_score then "review"
  else "skip"

/-- Model of `calculate_compliance_risk_score` (risk_assessment.py lines
188-205). -/
def calculate_compliance_risk_score (severity status : String) : ℚ :=
  let base : ℚ :=
    if severity = "critical" then 90
    else if severity = "high" then 70
    else if severity = "medium" then 50
    else if severity = "low" then 30
    else 50
  if status = "non_compliant" then base
  else if status = "partially_compliant" then base * (7/10)
  else base * (3/10)

/-- Model of `calculate_deadline_risk_score` (risk_assessment.py lines
208-219). -/
def calculate_deadline_risk_score (days_until : Int) : ℚ :=
  if days_until < 0 then 100
  else if days_until ≤ 7 then 90
  else if days_until ≤ 14 then 75
  else if days_until ≤ 30 then 60
  else 40

/-- Model of `map_urgency_to_severity` (risk_assessment.py lines 262-270):
the dict is the identity on the four levels with default `medium`. -/
def map_urgency_to_severity (urgency : String) : String :=
  if urgency = "critical" ∨ urgency = "high" ∨ urgency = "medium" ∨
      urgency = "low" then urgency
  else "medium"

/-- Model of `generate_compliance_mitigation` (risk_assessment.py lines
273-282); the `requirement` argument is unused, as in the source. -/
def generate_compliance_mitigation (regulation _requirement _severity : String) :
    String :=
  if regulation = "GDPR" then
    "Engage data protection officer to ensure GDPR compliance. Review and update data processing agreements."
  else if regulation = "ISO27001" then
    "Schedule audit with certified ISO27001 auditor. Review information security management system."
  else if regulation = "SOC2" then
    "Contact SOC2 auditor to schedule Type II assessment. Review security controls."
  else
    "Review " ++ regulation ++ " requirements and develop compliance plan. Consult with legal team if needed."

/-- Model of `generate_deadline_mitigation` (risk_assessment.py lines
285-294). -/
def generate_deadline_mitigation (days_until : Int) (description : String) :
    String :=
  if days_until < 0 then
    "URGENT: Deadline overdue. Contact relevant parties immediately to address " ++ description ++ "."
  else if days_until ≤ 7 then
    "CRITICAL: Take immediate action. Prioritize completion of " ++ description ++ " within the next week."
  else if days_until ≤ 30 then
    "HIGH PRIORITY: Schedule completion of " ++ description ++ " within " ++ toString days_until ++ " days. Set reminders."
  else
    "PLANNED: Schedule " ++ description ++ " completion. Set reminder for " ++ toString (days_until - 7) ++ " days."

/-- Model of `generate_obligation_mitigation` (risk_assessment.py lines
297-304). -/
def generate_obligation_mitigation (requirement party status : String) :
    String :=
  if status = "overdue" then
    "Contact " ++ party ++ " immediately regarding overdue obligation: " ++ requirement ++ ". Escalate to management if needed."
  else if status = "unclear" then
    "Seek clarification from legal team regarding: " ++ requirement ++ ". Document interpretation for " ++ party ++ "."
  else
    "Monitor " ++ requirement ++ " obligation for " ++ party ++ ". Ensure timely completion."

/-- Model of `assess_compliance_risks` (risk_assessment.py lines 98-126):
one risk per non- or partially-compliant item, id keyed by the position.
The dict reads `item.get("gap", ...)` and `item.get("severity", ...)` always
find the key (every `ComplianceItem` literal in the code carries both), so
the field values are used directly; a `gap` of `None` renders as `None` in
the f-string. -/
def assess_compliance_risks (compliance_items : List ComplianceItem) :
    List Risk :=
  compliance_items.enum.foldl (fun acc p =>
    let idx := p.1
    let item := p.2
    if item.status = "non_compliant" ∨ item.status = "partially_compliant" then
      acc ++ [{ id := "compliance_risk_" ++ toString idx
                category := "compliance"
                severity := item.severity
                description := item.regulation ++ ": " ++
                  (match item.gap with
                   | some g => g
                   | none => "Compliance gap identified")
                mitigation := generate_compliance_mitigation item.regulation
                  item.requirement item.severity
                score := calculate_compliance_risk_score item.severity
                  item.status }]
    else acc) []

/-- Model of `assess_deadline_risks` (risk_assessment.py lines 129-155):
one risk per renewal date at most 30 days out. -/
def assess_deadline_risks (renewal_dates : List RenewalDate) : List Risk :=
  renewal_dates.enum.foldl (fun acc p =>
    let idx := p.1
    let renewal := p.2
    if renewal.days_until ≤ 30 then
      acc ++ [{ id := "deadline_risk_" ++ toString idx
                category := "deadline"
                severity := map_urgency_to_severity renewal.urgency
                description := "Deadline approaching: " ++ renewal.description
                  ++ " in " ++ toString renewal.days_until ++ " days"
                mitigation := generate_deadline_mitigation renewal.days_until
                  renewal.description
                score := calculate_deadline_risk_score renewal.days_until }]
    else acc) []

/-- Model of `assess_obligation_risks` (risk_assessment.py lines 158-185). -/
def assess_obligation_risks (obligations : List Obligation) : List Risk :=
  obligations.enum.foldl (fun acc p =>
    let idx := p.1
    let obligation := p.2
    if obligation.status = "overdue" ∨ obligation.status = "unclear" then
      acc ++ [{ id := "obligation_risk_" ++ toString idx
                category := "contractual"
                severity :=
                  if obligation.status = "overdue" then "high" else "medium"
                description := "Obligation " ++ obligation.status ++ ": " ++
                  obligation.requirement ++ " (" ++ obligation.party ++ ")"
                mitigation := generate_obligation_mitigation
                  obligation.requirement obligation.party obligation.status
                score := if obligation.status = "overdue" then 70 else 50 }]
    else acc) []

/-- Stable insertion of a risk into a list sorted descending by score: the
inserted element goes before the first element whose score it reaches.
`sortDesc` built on this models Python's stable
`sorted(risks, key=lambda r: r["score"], reverse=True)`. -/
def insertDesc (r : Risk) : List Risk → List Risk
  | [] => [r]
  | x :: xs => if x.score ≤ r.score then r :: x :: xs else x :: insertDesc r xs

/-- Stable descending-by-score sort, modelling `sorted(..., reverse=True)`
in `calculate_overall_risk_score` (risk_assessment.py line 232). -/
def sortDesc : List Risk → List Risk
  | [] => []
  | r :: rest => insertDesc r (sortDesc rest)

/-- The weight table of `calculate_overall_risk_score` (risk_assessment.py
line 235). -/
def weights : List ℚ := [1, 7/10, 1/2, 3/10, 1/5]

/-- The accumulation loop of `calculate_overall_risk_score`
(risk_assessment.py lines 240-243): running `(weighted_sum, weight_total)`
over the list starting at index `idx`, with weight
`weights[idx] if idx < len(weights) else 0.1`. -/
def loopSums : List Risk → Nat → ℚ × ℚ
  | [], _ => (0, 0)
  | r :: rest, idx =>
    let w := weights.getD idx (1/10)
    let p := loopSums rest (idx + 1)
    (r.score * w + p.1, w + p.2)

/-- Python's `round(x, 1)` on the rationals: round `10·x` to the nearest
integer and divide by 10 (ties differ from CPython's bankers' rounding only
at exact midpoints, which the modelled score values never hit). -/
def round1 (x : ℚ) : ℚ := (round (10 * x) : ℤ) / 10

/-- Model of `calculate_overall_risk_score` (risk_assessment.py lines
222-247): weighted average of the top-5 risks sorted descending by score,
rounded to one decimal; `0` for the empty list. -/
def calculate_overall_risk_score (risks : List Risk) : ℚ :=
  if risks = [] then 0
  else
    let sorted := sortDesc risks
    let p := loopSums (sorted.take 5) 0
    round1 (if 0 < p.2 then p.1 / p.2 else 0)

/-- Closed-form overall score following the words of the specification
(section 4.4): sort risks descending by score, pair them with the weights
`[1.0, 0.7, 0.5, 0.3, 0.2]`, return the sum of score times weight divided by
the sum of the used weights, rounded to one decimal; `0` for the empty
list.  This definition follows the spec text, to be compared with
`calculate_overall_risk_score`, which follows the source. -/
def spec_overall_score (risks : List Risk) : ℚ :=
  if risks = [] then 0
  else
    let pairs := ((sortDesc risks).map Risk.score).zip weights
    round1 ((pairs.map (fun p => p.1 * p.2)).sum /
      (pairs.map Prod.snd).sum)

/-- Model of `check_deadline_compliance` (compliance.py lines 182-224): at
most one compliance item per renewal date, keyed by how far out the
deadline is. -/
def check_deadline_compliance (renewal_dates : List RenewalDate) :
    List ComplianceItem :=
  renewal_dates.foldl (fun acc renewal =>
    let days := renewal.days_until
    if days < 0 then
      acc ++ [{ regulation := "Deadline Compliance"
                requirement := "Meet deadline: " ++ renewal.description
                status := "non_compliant"
                gap := some ("Deadline overdue by " ++ toString days.natAbs
                  ++ " days")
                severity := "critical" }]
    else if days ≤ 7 then
      acc ++ [{ regulation := "Deadline Compliance"
                requirement := "Meet deadline: " ++ renewal.description
                status := "partially_compliant"
                gap := some ("Deadline in " ++ toString days
                  ++ " days - immediate action required")
                severity := "critical" }]
    else if days ≤ 30 then
      acc ++ [{ regulation := "Deadline Compliance"
                requirement := "Meet deadline: " ++ renewal.description
                status := "partially_compliant"
                gap := some ("Deadline approaching in " ++ toString days
                  ++ " days")
                severity := "high" }]
    else acc) []

/-- Substring relation on strings, for the gap-text claims: `needle` occurs
contiguously inside `hay`. -/
def substringOf (needle hay : String) : Prop :=
  ∃ pre post, hay = pre ++ needle ++ post

/-- Model of `prepare_review_summary` (hitl.py lines 103-160). -/
def prepare_review_summary (s : State) : ReviewSummary :=
  let critical_risks := s.risks.filter
    (fun r => r.severity = "critical" ∨ r.severity = "high")
  let non_compliant := s.compliance_items.filter
    (fun c => c.status = "non_compliant")
  let unclear_obligations := s.obligations.filter
    (fun o => o.status = "unclear")
  let riskGroups : List ReviewGroup :=
    if critical_risks.length > 0 then
      [{ type_ := "risks", priority := "critical"
         count := critical_risks.length
         description := toString critical_risks.length
           ++ " critical/high risks identified"
         items := (critical_risks.take 5).map GroupItem.riskItem }]
    else []
  let compGroups : List ReviewGroup :=
    if non_compliant.length > 0 then
      [{ type_ := "compliance", priority := "high"
         count := non_compliant.length
         description := toString non_compliant.length
           ++ " compliance gaps found"
         items := (non_compliant.take 5).map GroupItem.compItem }]
    else []
  let oblGroups : List ReviewGroup :=
    if unclear_obligations.length > 0 then
      [{ type_ := "obligations", priority := "medium"
         count := unclear_obligations.length
         description := toString unclear_obligations.length
           ++ " obligations need clarification"
         items := (unclear_obligations.take 5).map GroupItem.oblItem }]
    else []
  { overall_risk_score := s.overall_risk_score
    risk_level := s.risk_level
    items := riskGroups ++ compGroups ++ oblGroups
    requires_attention :=
      critical_risks.length > 0 ∨ non_compliant.length > 0 }

/-- The field overwrites one `modifications["risks"]` entry performs on one
risk (hitl.py lines 180-187): applied to every risk whose `id` equals the
entry's `id` (an absent `id` key is `None` and matches no string). -/
def applyRiskMod (mod : RiskMod) (r : Risk) : Risk :=
  if mod.id = some r.id then
    { r with severity := mod.severity.getD r.severity
             description := mod.description.getD r.description
             mitigation := mod.mitigation.getD r.mitigation }
  else r

/-- The risks pass of `apply_user_modifications` (hitl.py lines 176-188):
each entry is applied over the current list in sequence. -/
def applyRiskMods (risks : List Risk) (mods : List RiskMod) : List Risk :=
  mods.foldl (fun rl mod => rl.map (applyRiskMod mod)) risks

/-- The exception text CPython raises for `0 <= None` (hitl.py line 195),
caught by the handler of `hitl_node`. -/
def typeErrMsg : String :=
  "'<=' not supported between instances of 'int' and 'NoneType'"

/-- The compliance pass of `apply_user_modifications` (hitl.py lines
191-200): an entry without an integer `index` makes the chained comparison
`0 <= idx < len(...)` raise, aborting the whole call; an in-range index
overwrites the addressed item's `status`/`gap`; an out-of-range index is
skipped. -/
def applyComplianceMods (items : List ComplianceItem)
    (mods : List ComplianceMod) : Except String (List ComplianceItem) :=
  match mods with
  | [] => Except.ok items
  | mod :: rest =>
    match mod.index with
    | none => Except.error typeErrMsg
    | some i =>
      let items2 :=
        if 0 ≤ i ∧ i < items.length then
          items.set i.toNat
            (let item := items.getD i.toNat default
             { item with status := mod.status.getD item.status
                         gap := (mod.gap.map Option.some).getD item.gap })
        else items
      applyComplianceMods items2 rest

/-- The field overwrites one `modifications["obligations"]` entry performs
on one obligation (hitl.py lines 205-212), applied to every obligation whose
`clause_id` matches. -/
def applyObligationMod (mod : ObligationMod) (o : Obligation) : Obligation :=
  if mod.clause_id = some o.clause_id then
    { o with status := mod.status.getD o.status
             description := mod.description.getD o.description }
  else o

/-- The obligations pass of `apply_user_modifications` (hitl.py lines
202-213). -/
def applyObligationMods (obligations : List Obligation)
    (mods : List ObligationMod) : List Obligation :=
  mods.foldl (fun ol mod => ol.map (applyObligationMod mod)) obligations

/-- Model of `apply_user_modifications` (hitl.py lines 163-219) as explicit
state passing: the Python function mutates the state's `risks`,
`compliance_items` and `obligations` lists in place and returns a dict that
holds those same (full, mutated) lists under their keys.  The returned
`State` is the post-call state of those lists; the `Update` is the returned
dict.  A raising compliance entry propagates as `Except.error` to the
caller's handler (the state component then reflects the risks-pass
mutations already performed before the raise). -/
def apply_user_modifications (s : State) (mods : Modifications) :
    State × Except String Update :=
  let afterRisks :=
    match mods.risks with
    | none => (s, ({} : Update))
    | some rmods =>
      let newRisks := applyRiskMods s.risks rmods
      ({ s with risks := newRisks }, { risks := some newRisks })
  let s1 := afterRisks.1
  let u1 := afterRisks.2
  match mods.compliance_items with
  | none =>
    let afterObl :=
      match mods.obligations with
      | none => (s1, u1)
      | some omods =>
        let newObls := applyObligationMods s1.obligations omods
        ({ s1 with obligations := newObls },
         { u1 with obligations := some newObls })
    let s2 := afterObl.1
    let u2 := afterObl.2
    match mods.notes with
    | none => (s2, Except.ok u2)
    | some n =>
      (s2, Except.ok { u2 with messages := some ["User note: " ++ n] })
  | some cmods =>
    match applyComplianceMods s1.compliance_items cmods with
    | Except.error e => (s1, Except.error e)
    | Except.ok newItems =>
      let s2 := { s1 with compliance_items := newItems }
      let u2 := { u1 with compliance_items := some newItems }
      let afterObl :=
        match mods.obligations with
        | none => (s2, u2)
        | some omods =>
          let newObls := applyObligationMods s2.obligations omods
          ({ s2 with obligations := newObls },
           { u2 with obligations := some newObls })
      let s3 := afterObl.1
      let u3 := afterObl.2
      match mods.notes with
      | none => (s3, Except.ok u3)
      | some n =>
        (s3, Except.ok { u3 with messages := some ["User note: " ++ n] })

/-- Model of `hitl_node` (hitl.py lines 14-100) as state passing.  `none`
models the implicit Python `None` return on an unrecognized feedback
action.  A raise inside `apply_user_modifications` is caught by the
node's handler, which returns the soft-fail error update. -/
def hitl_node (s : State) : Option (State × Update) :=
  match s.human_feedback with
  | some fb =>
    let action := fb.action.getD ("approved")
    let mods := fb.modifications.getD {}
    if action = "approved" then
      some (s, { requires_review := some false
                 current_step := some ("hitl_approved")
                 progress_percentage := some 85
                 messages := some ["Review approved by user"] })
    else if action = "revised" then
      let r := apply_user_modifications s mods
      match r.2 with
      | Except.ok u =>
        some (r.1,
          { u with requires_review := some false
                   current_step := some ("hitl_revised")
                   progress_percentage := some 85
                   messages := some ["Review revised with user feedback: "
                     ++ optStr fb.comments] })
      | Except.error e =>
        some (r.1, { status := some ("error")
                     error_message := some ("HITL review failed: " ++ e)
                     current_step := some ("hitl") })
    else if action = "rejected" then
      some (s, { status := some ("error")
                 error_message := some ("User rejected findings: "
                   ++ optStr fb.comments)
                 current_step := some ("hitl_rejected") })
    else none
  | none =>
    let summary := prepare_review_summary s
    some (s, { requires_review := some true
               current_step := some ("hitl_pending")
               progress_percentage := some 80
               messages := some ["Awaiting human review and approval"]
               review_items := some (summary.items.map ReviewEntry.group) })

/-- Upper-casing of a string, modelling Python's `str.upper` for the ASCII
risk-level names it is applied to. -/
def strUpper (s : String) : String := s.map Char.toUpper

/-- Python's `f"{x:.1f}"` for the non-negative one-decimal rationals the
node formats (every formatted value is already a `round1` result, so no
further rounding occurs). -/
def fmt1 (q : ℚ) : String :=
  let n : Int := round (10 * q)
  toString (n / 10) ++ "." ++ toString (n % 10)

/-- Model of `risk_assessment_node` (risk_assessment.py lines 20-95): the
three assessment passes, the overall score, the review trigger, and the
returned partial update.  No operation in the body can raise, so the
exception branch is dead. -/
def risk_assessment_node (s : State) : Option (State × Update) :=
  let all_risks := assess_compliance_risks s.compliance_items
    ++ assess_deadline_risks s.renewal_dates
    ++ assess_obligation_risks s.obligations
  let score := calculate_overall_risk_score all_risks
  let level := determine_risk_level score
  let requires_review := 75 < score ∨
    all_risks.any (fun r => r.severity = "critical")
  let review_items :=
    if requires_review then
      (all_risks.filter (fun r =>
        r.severity = "critical" ∨ r.severity = "high")).map
        (fun r => ReviewEntry.strItem r.description)
    else []
  some (s, { risks := some all_risks
             overall_risk_score := some score
             risk_level := some level
             requires_review := some (decide requires_review)
             review_items := some review_items
             current_step := some ("risk_assessment")
             progress_percentage := some 75
             messages := some
               ["Identified " ++ toString all_risks.length ++ " risk items",
                "Overall risk level: " ++ strUpper level,
                "Risk score: " ++ fmt1 score ++ "/100"] })

/-- Model of `report_generation_node` (report.py lines 14-91): the terminal
stage.  Only the scalar header of the generated report is carried in the
embedding (the free-text `summary`, the `sections` dict and the derived
`recommendations` list are presentation data outside every claim); the
update's `status`, `current_step` and `progress_percentage` follow the
source. -/
def report_generation_node (s : State) : Option (State × Update) :=
  some (s, { verification_report := some
               { document_id := s.session_id
                 risk_level := s.risk_level
                 overall_risk_score := s.overall_risk_score }
             status := some ("completed")
             current_step := some ("report_generation")
             progress_percentage := some 100
             messages := some ["Verification report generated successfully"] })

/-- The node names of the LangGraph state machine (graph.py lines 36-42). -/
inductive Node where
  | ingestion
  | classification
  | extraction
  | compliance
  | risk_assessment
  | hitl
  | report_generation
  deriving DecidableEq, Repr

/-- The edge table of the graph (graph.py lines 45-62): every edge is
unconditional except `risk_assessment`, which routes through
`should_review`; `report_generation` goes to `END`. -/
def nextNode (n : Node) (s : State) : Option Node :=
  match n with
  | Node.ingestion => some Node.classification
  | Node.classification => some Node.extraction
  | Node.extraction => some Node.compliance
  | Node.compliance => some Node.risk_assessment
  | Node.risk_assessment =>
    if should_review s = "review" then some Node.hitl
    else some Node.report_generation
  | Node.hitl => some Node.report_generation
  | Node.report_generation => none

/-- The stage functions attached to the nodes.  The first four stages call
the external document-processing and LLM services (ingestion.py,
classification.py, extraction.py, compliance.py) and are outside every
claim; they are left unmodelled (`none`), which makes `run` stop there. -/
def nodeFn (n : Node) (s : State) : Option (State × Update) :=
  match n with
  | Node.risk_assessment => risk_assessment_node s
  | Node.hitl => hitl_node s
  | Node.report_generation => report_generation_node s
  | _ => none

/-- Fuel-bounded execution of the graph from a given node, following
LangGraph's invoke loop: run the stage on the state, merge its update under
the per-field policy (the state component carries any in-place mutation the
stage performed), then follow the edge table on the merged state.  There is
no error check between stages: a `status` of `error` in an update does not
stop the walk, because graph.py declares no such edge. -/
def run : Nat → Node → State → State
  | 0, _, s => s
  | fuel + 1, n, s =>
    match nodeFn n s with
    | none => s
    | some p =>
      let s2 := applyUpdate p.1 p.2
      match nextNode n s2 with
      | none => s2
      | some n2 => run fuel n2 s2

/-! Concrete fixtures used by the counterexample and witness theorems: a
state as it stands right after risk assessment, and feedback payloads for
the three resume actions. -/

/-- A state as produced by a run that reached the review gate: score 80,
review required, no feedback attached yet. -/
def baseState : State where
  session_id := "s1"
  risks := []
  compliance_items := []
  obligations := []
  renewal_dates := []
  review_items := []
  messages := []
  overall_risk_score := 80
  risk_level := "critical"
  requires_review := true
  human_feedback := none
  current_step := "risk_assessment"
  progress_percentage := 75
  status := "processing"
  error_message := none
  verification_report := none

/-- A compliance risk as `assess_compliance_risks` emits for a high-severity
non-compliant item. -/
def riskA : Risk where
  id := "compliance_risk_0"
  category := "compliance"
  severity := "high"
  description := "GDPR: No DPA found in contract documents"
  mitigation := "m"
  score := 70

/-- `riskA` after the user modification that lowers its severity. -/
def riskALow : Risk := { riskA with severity := "low" }

/-- Feedback rejecting the findings. -/
def rejectedFeedback : HumanFeedback :=
  { action := some ("rejected"), comments := some ("bad findings") }

/-- The review-gate state resumed with a rejection. -/
def rejectedState : State :=
  { baseState with human_feedback := some rejectedFeedback }

/-- A revision that targets `riskA` by id and lowers its severity. -/
def revisedMods : Modifications :=
  { risks := some [{ id := some ("compliance_risk_0"),
                     severity := some ("low") }] }

/-- Feedback carrying `revisedMods`. -/
def revisedFeedback : HumanFeedback :=
  { action := some ("revised"), comments := some ("tweak"),
    modifications := some revisedMods }

/-- The review-gate state holding `riskA`, resumed with the revision. -/
def revisedState : State :=
  { baseState with risks := [riskA],
                   human_feedback := some revisedFeedback }

/-! Claim theorems. -/

/-- Claim C5: at the `risk_assessment` node the conditional edge routes to
the review gate exactly when `requires_review` is set or the overall risk
score exceeds 75, and to report generation otherwise; in particular
`requires_review = false` with score 80 still routes to the review gate. -/
theorem c5_conditional_routing :
    (∀ s : State,
      (nextNode Node.risk_assessment s = some Node.hitl ↔
        (s.requires_review = true ∨ 75 < s.overall_risk_score)) ∧
      (nextNode Node.risk_assessment s = some Node.report_generation ↔
        ¬(s.requires_review = true ∨ 75 < s.overall_risk_score))) ∧
    (∀ s : State, s.requires_review = false → s.overall_risk_score = 80 →
      nextNode Node.risk_assessment s = some Node.hitl) := by
  constructor
  · intro s
    cases hb : s.requires_review <;>
      by_cases hsc : 75 < s.overall_risk_score <;>
        simp [nextNode, should_review, hb, hsc]
  · intro s h1 h2
    simp [nextNode, should_review, h1, h2]
    norm_num

/-- Witness for C5 at a concrete state with the flag cleared and score 80. -/
theorem c5_conditional_routing_witness :
    nextNode Node.risk_assessment
      { baseState with requires_review := false } = some Node.hitl :=
  c5_conditional_routing.2 { baseState with requires_review := false } rfl rfl

/-- Claim C6: `determine_risk_level` maps scores of at least 76 to
`critical`, 51 to 75 to `high`, 26 to 50 to `medium` and below 26 to `low`,
with every boundary closed at its lower end. -/
theorem c6_risk_level_boundaries :
    (∀ q : ℚ,
      (76 ≤ q → determine_risk_level q = "critical") ∧
      (51 ≤ q → q ≤ 75 → determine_risk_level q = "high") ∧
      (26 ≤ q → q ≤ 50 → determine_risk_level q = "medium") ∧
      (q < 26 → determine_risk_level q = "low")) ∧
    determine_risk_level 76 = "critical" ∧
    determine_risk_level 75 = "high" ∧
    determine_risk_level 51 = "high" ∧
    determine_risk_level 50 = "medium" ∧
    determine_risk_level 26 = "medium" ∧
    determine_risk_level 25 = "low" := by
  refine ⟨fun q => ⟨?_, ?_, ?_, ?_⟩, ?_, ?_, ?_, ?_, ?_, ?_⟩ <;>
    first
      | decide
      | (intros
         simp only [determine_risk_level]
         split_ifs <;> first | rfl | linarith)

/-- Witness for C6 at the concrete score 100. -/
theorem c6_risk_level_boundaries_witness :
    determine_risk_level 100 = "critical" :=
  (c6_risk_level_boundaries.1 100).1 (by norm_num)

/-- Claim C3: entering the review gate with no human feedback returns an
update that sets `requires_review = true` but never sets `status` — the
`review_required` suspend marker the spec requires is absent from the
code's update (hitl.py lines 84-91 return no `status` key). -/
theorem c3_pending_update_has_no_status (s : State)
    (h : s.human_feedback = none) :
    (hitl_node s).map (fun p => (p.2.requires_review, p.2.status)) =
      some (some true, none) := by
  simp [hitl_node, h]

/-- Witness for C3 at the concrete review-gate state. -/
theorem c3_pending_update_has_no_status_witness :
    (hitl_node baseState).map
      (fun p => (p.2.requires_review, p.2.status)) =
      some (some true, none) :=
  c3_pending_update_has_no_status baseState rfl

/-- Claim C2: resuming with a rejection does set `status = error` with the
rejection comment in `error_message`, but the pipeline does not halt there:
the unconditional `hitl → report_generation` edge (graph.py line 61) runs
report generation on the error state, which overwrites the status with
`completed` and emits a report. -/
theorem c2_rejected_error_not_terminal :
    (hitl_node rejectedState).map (fun p => (p.2.status, p.2.error_message)) =
      some (some ("error"), some ("User rejected findings: bad findings")) ∧
    (run 10 Node.hitl rejectedState).status = "completed" ∧
    (run 10 Node.hitl rejectedState).current_step = "report_generation" ∧
    (run 10 Node.hitl rejectedState).verification_report ≠ none := by
  refine ⟨by decide, by decide, by decide, by decide⟩

/-- Claim C4: the revised path of the review gate violates the delta-only
contract at a concrete input: `apply_user_modifications` rewrites the
state's risk list in place (the input list is no longer the original) and
returns the full mutated list — not the empty delta — under the `risks`
key, so the orchestrator's append merge duplicates every risk. -/
theorem c4_revised_returns_full_mutated_list :
    revisedState.risks = [riskA] ∧
    (apply_user_modifications revisedState revisedMods).1.risks = [riskALow] ∧
    riskALow ≠ riskA ∧
    (apply_user_modifications revisedState revisedMods).2 =
      Except.ok { risks := some [riskALow] } ∧
    (hitl_node revisedState).map (fun p => (applyUpdate p.1 p.2).risks) =
      some [riskALow, riskALow] := by
  refine ⟨rfl, by decide, by decide, by rfl, by decide⟩

/-- Claim C7: the deadline pass of the compliance stage maps each renewal
date to at most one compliance item by its `days_until`: overdue dates give
a critical non-compliant item whose gap names the overdue day count, dates
within a week give a critical partially-compliant item, dates within a
month a high partially-compliant item, later dates none; `days_until = -3`
also yields urgency `critical` in the extraction stage. -/
theorem c7_deadline_compliance_bands (d : RenewalDate) :
    (d.days_until < 0 →
      check_deadline_compliance [d] =
        [{ regulation := "Deadline Compliance"
           requirement := "Meet deadline: " ++ d.description
           status := "non_compliant"
           gap := some ("Deadline overdue by "
             ++ toString d.days_until.natAbs ++ " days")
           severity := "critical" }] ∧
      substringOf ("overdue by " ++ toString d.days_until.natAbs ++ " days")
        ("Deadline overdue by " ++ toString d.days_until.natAbs
          ++ " days")) ∧
    (0 ≤ d.days_until → d.days_until ≤ 7 →
      check_deadline_compliance [d] =
        [{ regulation := "Deadline Compliance"
           requirement := "Meet deadline: " ++ d.description
           status := "partially_compliant"
           gap := some ("Deadline in " ++ toString d.days_until
             ++ " days - immediate action required")
           severity := "critical" }]) ∧
    (8 ≤ d.days_until → d.days_until ≤ 30 →
      check_deadline_compliance [d] =
        [{ regulation := "Deadline Compliance"
           requirement := "Meet deadline: " ++ d.description
           status := "partially_compliant"
           gap := some ("Deadline approaching in " ++ toString d.days_until
             ++ " days")
           severity := "high" }]) ∧
    (30 < d.days_until → check_deadline_compliance [d] = []) ∧
    (d.days_until = -3 → calculate_urgency d.days_until = "critical") := by
  refine ⟨fun h => ⟨?_, ?_⟩, fun h0 h7 => ?_, fun h8 h30 => ?_,
    fun h => ?_, fun h => ?_⟩
  · simp [check_deadline_compliance, h]
  · refine ⟨"Deadline ", "", ?_⟩
    rw [String.append_empty, ← String.append_assoc, ← String.append_assoc]
    rfl
  · have hlt : ¬d.days_until < 0 := by omega
    simp [check_deadline_compliance, hlt, h7]
  · have hlt : ¬d.days_until < 0 := by omega
    have h7 : ¬d.days_until ≤ 7 := by omega
    simp [check_deadline_compliance, hlt, h7, h30]
  · have hlt : ¬d.days_until < 0 := by omega
    have h7 : ¬d.days_until ≤ 7 := by omega
    have h30 : ¬d.days_until ≤ 30 := by omega
    simp [check_deadline_compliance, hlt, h7, h30]
  · rw [h]
    decide

/-- Witness for C7 at a renewal date overdue by three days: the emitted item
is critical and non-compliant and its gap text contains "overdue by 3
days". -/
theorem c7_deadline_compliance_bands_witness :
    ((-3 : Int) < 0 →
      check_deadline_compliance
          [{ description := "renew", days_until := -3,
             urgency := "critical" }] =
        [{ regulation := "Deadline Compliance"
           requirement := "Meet deadline: " ++ "renew"
           status := "non_compliant"
           gap := some ("Deadline overdue by "
             ++ toString (-3 : Int).natAbs ++ " days")
           severity := "critical" }] ∧
      substringOf ("overdue by " ++ toString (-3 : Int).natAbs ++ " days")
        ("Deadline overdue by " ++ toString (-3 : Int).natAbs
          ++ " days")) ∧
    calculate_urgency (-3) = "critical" := by
  have h := c7_deadline_compliance_bands
    { description := "renew", days_until := -3, urgency := "critical" }
  exact ⟨fun _ => h.1 (by decide), h.2.2.2.2 rfl⟩

/-- A risk-modification entry whose id matches no risk leaves each risk
untouched. -/
theorem map_applyRiskMod_no_match (mod : RiskMod) (rl : List Risk)
    (h : ∀ r ∈ rl, mod.id ≠ some r.id) :
    rl.map (applyRiskMod mod) = rl := by
  induction rl with
  | nil => rfl
  | cons r rest ih =>
    simp only [List.map_cons]
    rw [ih (fun x hx => h x (List.mem_cons_of_mem _ hx))]
    have hr : applyRiskMod mod r = r := by
      unfold applyRiskMod
      rw [if_neg (h r (List.mem_cons_self _ _))]
    rw [hr]

/-- The whole risks pass is the identity when no entry matches any risk. -/
theorem applyRiskMods_no_match (rl : List Risk) (mods : List RiskMod)
    (h : ∀ mod ∈ mods, ∀ r ∈ rl, mod.id ≠ some r.id) :
    applyRiskMods rl mods = rl := by
  induction mods with
  | nil => rfl
  | cons m rest ih =>
    have step : applyRiskMods rl (m :: rest) =
        applyRiskMods (rl.map (applyRiskMod m)) rest := rfl
    rw [step, map_applyRiskMod_no_match m rl (h m (List.mem_cons_self _ _))]
    exact ih (fun mod hm r hr => h mod (List.mem_cons_of_mem _ hm) r hr)

/-- Claim C8: resuming with `action = revised` where every risk entry
targets an id absent from the risk list is a no-op on the risks — the state
list is not mutated, the returned update carries the unchanged list, and no
error state is produced (the node completes its revised path). -/
theorem c8_unmatched_risk_mod_is_noop (s : State) (fb : HumanFeedback)
    (mods : Modifications) (rmods : List RiskMod)
    (hfb : s.human_feedback = some fb)
    (hact : fb.action = some ("revised"))
    (hmods : fb.modifications = some mods)
    (hrm : mods.risks = some rmods)
    (hcm : mods.compliance_items = none)
    (hom : mods.obligations = none)
    (hun : ∀ mod ∈ rmods, ∀ r ∈ s.risks, mod.id ≠ some r.id) :
    (hitl_node s).map
      (fun p => (p.1.risks, p.2.risks, p.2.status, p.2.current_step)) =
      some (s.risks, some s.risks, none, some ("hitl_revised")) := by
  have hr : applyRiskMods s.risks rmods = s.risks :=
    applyRiskMods_no_match _ _ hun
  cases hn : mods.notes <;>
    simp [hitl_node, hfb, hact, hmods, apply_user_modifications, hrm, hcm,
      hom, hn, hr]

/-- A revision targeting a nonexistent risk id, for the C8 witness. -/
def noMatchMods : Modifications :=
  { risks := some [{ id := some ("nonexistent_risk"),
                     severity := some ("low") }] }

/-- Feedback carrying `noMatchMods`. -/
def noMatchFeedback : HumanFeedback :=
  { action := some ("revised"), modifications := some noMatchMods }

/-- The review-gate state holding `riskA`, resumed with `noMatchMods`. -/
def noMatchState : State :=
  { baseState with risks := [riskA], human_feedback := some noMatchFeedback }

/-- Witness for C8: the concrete unmatched revision leaves `riskA` in place
and completes without an error status. -/
theorem c8_unmatched_risk_mod_is_noop_witness :
    (hitl_node noMatchState).map
      (fun p => (p.1.risks, p.2.risks, p.2.status, p.2.current_step)) =
      some ([riskA], some [riskA], none, some ("hitl_revised")) :=
  c8_unmatched_risk_mod_is_noop noMatchState noMatchFeedback noMatchMods
    [{ id := some ("nonexistent_risk"), severity := some ("low") }]
    rfl rfl rfl rfl rfl rfl (by decide)

/-- The compliance pass raises as soon as an entry has no integer index. -/
theorem applyComplianceMods_error (cmods : List ComplianceMod) :
    ∀ items : List ComplianceItem, (∃ m ∈ cmods, m.index = none) →
    applyComplianceMods items cmods = Except.error typeErrMsg := by
  induction cmods with
  | nil =>
    intro items h
    rcases h with ⟨m, hm, _⟩
    simp at hm
  | cons c rest ih =>
    intro items h
    rcases h with ⟨m, hm, hidx⟩
    rcases List.mem_cons.mp hm with heq | hm2
    · subst heq
      simp [applyComplianceMods, hidx]
    · cases hc : c.index with
      | none => simp [applyComplianceMods, hc]
      | some i =>
        simp only [applyComplianceMods, hc]
        exact ih _ ⟨m, hm2, hidx⟩

/-- Claim C10: resuming with a revision whose compliance entries include one
without an integer `index` makes the node return the soft-fail error update
(the chained bounds comparison raises and the handler converts it), rather
than ignoring the entry. -/
theorem c10_missing_index_yields_error_state (s : State)
    (fb : HumanFeedback) (mods : Modifications)
    (cmods : List ComplianceMod)
    (hfb : s.human_feedback = some fb)
    (hact : fb.action = some ("revised"))
    (hmods : fb.modifications = some mods)
    (hcm : mods.compliance_items = some cmods)
    (hex : ∃ m ∈ cmods, m.index = none) :
    (hitl_node s).map
      (fun p => (p.2.status, p.2.error_message, p.2.current_step)) =
      some (some ("error"), some ("HITL review failed: " ++ typeErrMsg),
        some ("hitl")) := by
  cases hr : mods.risks <;>
    simp [hitl_node, hfb, hact, hmods, apply_user_modifications, hr, hcm,
      applyComplianceMods_error _ _ hex]

/-- A revision whose compliance entry lacks the `index` key, for the C10
witness. -/
def badIdxMods : Modifications :=
  { compliance_items := some [{ status := some ("compliant") }] }

/-- Feedback carrying `badIdxMods`. -/
def badIdxFeedback : HumanFeedback :=
  { action := some ("revised"), modifications := some badIdxMods }

/-- The review-gate state resumed with `badIdxMods`. -/
def badIdxState : State :=
  { baseState with human_feedback := some badIdxFeedback }

/-- Witness for C10 at the concrete index-less revision. -/
theorem c10_missing_index_yields_error_state_witness :
    (hitl_node badIdxState).map
      (fun p => (p.2.status, p.2.error_message, p.2.current_step)) =
      some (some ("error"), some ("HITL review failed: " ++ typeErrMsg),
        some ("hitl")) :=
  c10_missing_index_yields_error_state badIdxState badIdxFeedback badIdxMods
    [{ status := some ("compliant") }] rfl rfl rfl rfl (by decide)

/-! Support lemmas for the overall-score claims. -/

/-- Inserting into the descending sort adds one element. -/
theorem insertDesc_length (r : Risk) (l : List Risk) :
    (insertDesc r l).length = l.length + 1 := by
  induction l with
  | nil => rfl
  | cons x xs ih =>
    unfold insertDesc
    split_ifs <;> simp [ih]

/-- The descending sort preserves length. -/
theorem sortDesc_length (l : List Risk) :
    (sortDesc l).length = l.length := by
  induction l with
  | nil => rfl
  | cons r rest ih =>
    unfold sortDesc
    rw [insertDesc_length, ih]
    simp

/-- Every element of an insertion comes from the inserted element or the
list. -/
theorem mem_insertDesc {a r : Risk} {l : List Risk}
    (h : a ∈ insertDesc r l) : a = r ∨ a ∈ l := by
  induction l with
  | nil =>
    simp [insertDesc] at h
    exact Or.inl h
  | cons x xs ih =>
    unfold insertDesc at h
    by_cases hc : x.score ≤ r.score
    · rw [if_pos hc] at h
      rcases List.mem_cons.mp h with h1 | h2
      · exact Or.inl h1
      · exact Or.inr h2
    · rw [if_neg hc] at h
      rcases List.mem_cons.mp h with h1 | h2
      · exact Or.inr (h1 ▸ List.mem_cons_self _ _)
      · rcases ih h2 with h3 | h4
        · exact Or.inl h3
        · exact Or.inr (List.mem_cons_of_mem _ h4)

/-- Every element of the descending sort is an element of the input. -/
theorem mem_sortDesc {a : Risk} : ∀ {l : List Risk},
    a ∈ sortDesc l → a ∈ l := by
  intro l
  induction l with
  | nil => intro h; simp [sortDesc] at h
  | cons r rest ih =>
    intro h
    rcases mem_insertDesc h with h1 | h2
    · exact h1 ▸ List.mem_cons_self _ _
    · exact List.mem_cons_of_mem _ (ih h2)

/-- Every weight the scoring loop can pick is positive. -/
theorem weights_getD_pos (idx : Nat) : 0 < weights.getD idx (1/10) := by
  by_cases h : idx < 5
  · interval_cases idx <;> norm_num [weights]
  · rw [List.getD_eq_default]
    · norm_num
    · simp only [weights]
      simp
      omega

/-- The accumulated weight total is nonnegative. -/
theorem loopSums_t_nonneg (l : List Risk) :
    ∀ idx : Nat, 0 ≤ (loopSums l idx).2 := by
  induction l with
  | nil => intro idx; simp [loopSums]
  | cons r rest ih =>
    intro idx
    simp only [loopSums]
    have h1 := weights_getD_pos idx
    have h2 := ih (idx + 1)
    linarith

/-- The accumulated weight total over a nonempty list is positive. -/
theorem loopSums_t_pos (l : List Risk) (idx : Nat) (h : l ≠ []) :
    0 < (loopSums l idx).2 := by
  cases l with
  | nil => exact absurd rfl h
  | cons r rest =>
    simp only [loopSums]
    have h1 := weights_getD_pos idx
    have h2 := loopSums_t_nonneg rest (idx + 1)
    linarith

/-- The weighted sum is nonnegative when every score is. -/
theorem loopSums_fst_nonneg (l : List Risk) :
    ∀ idx : Nat, (∀ r ∈ l, 0 ≤ r.score) → 0 ≤ (loopSums l idx).1 := by
  induction l with
  | nil => intro idx _; simp [loopSums]
  | cons r rest ih =>
    intro idx h
    simp only [loopSums]
    have h1 : 0 ≤ r.score * weights.getD idx (1/10) :=
      mul_nonneg (h r (List.mem_cons_self _ _)) (weights_getD_pos idx).le
    have h2 := ih (idx + 1) (fun x hx => h x (List.mem_cons_of_mem _ hx))
    linarith

/-- The weighted sum is bounded by any score bound times the weight total. -/
theorem loopSums_fst_le (l : List Risk) (M : ℚ) :
    ∀ idx : Nat, (∀ r ∈ l, r.score ≤ M) →
    (loopSums l idx).1 ≤ M * (loopSums l idx).2 := by
  induction l with
  | nil => intro idx _; simp [loopSums]
  | cons r rest ih =>
    intro idx h
    simp only [loopSums]
    have h1 : r.score * weights.getD idx (1/10) ≤
        M * weights.getD idx (1/10) :=
      mul_le_mul_of_nonneg_right (h r (List.mem_cons_self _ _))
        (weights_getD_pos idx).le
    have h2 := ih (idx + 1) (fun x hx => h x (List.mem_cons_of_mem _ hx))
    ring_nf
    ring_nf at h1 h2
    linarith

/-- Rounding to one decimal is monotone. -/
theorem round1_mono {x y : ℚ} (h : x ≤ y) : round1 x ≤ round1 y := by
  unfold round1
  have h2 : round (10 * x) ≤ round (10 * y) := by
    rw [round_eq, round_eq]
    exact Int.floor_le_floor (by linarith)
  refine (div_le_div_iff_of_pos_right (by norm_num)).mpr ?_
  exact_mod_cast h2

/-- Rounding fixes zero. -/
theorem round1_zero : round1 0 = 0 := by
  norm_num [round1, round_eq]

/-- Rounding fixes one hundred. -/
theorem round1_hundred : round1 100 = 100 := by
  norm_num [round1, round_eq]

/-- The loop of `calculate_overall_risk_score` agrees with the
zip-with-weights closed form on lists of at most five risks (the only case
the claim quantifies over; the index never reaches the `0.1` fallback). -/
theorem overall_core_eq_spec (m : List Risk) (h5 : m.length ≤ 5)
    (hne : m ≠ []) :
    round1 (if 0 < (loopSums (m.take 5) 0).2
      then (loopSums (m.take 5) 0).1 / (loopSums (m.take 5) 0).2 else 0) =
    round1 ((((m.map Risk.score).zip weights).map
        (fun p => p.1 * p.2)).sum /
      (((m.map Risk.score).zip weights).map Prod.snd).sum) := by
  rcases m with _ | ⟨a, _ | ⟨b, _ | ⟨c, _ | ⟨d, _ | ⟨e, _ | ⟨f, rest⟩⟩⟩⟩⟩⟩
  · exact absurd rfl hne
  · congr 1
    norm_num [loopSums, weights]
  · congr 1
    norm_num [loopSums, weights]
  · congr 1
    norm_num [loopSums, weights]
  · congr 1
    norm_num [loopSums, weights]
  · congr 1
    norm_num [loopSums, weights]
  · simp at h5

/-- A risk fixture with a given id and score, for concrete score
computations. -/
def scoredRisk (i : String) (q : ℚ) : Risk where
  id := i
  category := "compliance"
  severity := "high"
  description := "d"
  mitigation := "m"
  score := q

/-- The spec's worked example: risks scoring 90, 70 and 50. -/
def risks905070 : List Risk :=
  [scoredRisk "r1" 90, scoredRisk "r2" 70, scoredRisk "r3" 50]

/-- Counterexample to claim C1 as stated: the scores 90, 70, 50 give
(90·1 + 70·0.7 + 50·0.5) / 2.2 = 74.545…, which rounds to 74.5 — not the
76.8 the claim asserts. -/
theorem c1_spec_example_refuted :
    calculate_overall_risk_score risks905070 = 149/2 ∧
    (149/2 : ℚ) ≠ 384/5 := by
  constructor
  · unfold calculate_overall_risk_score
    rw [if_neg (by simp [risks905070] : ¬risks905070 = [])]
    norm_num [sortDesc, insertDesc, loopSums, weights, risks905070,
      scoredRisk, round1, round_eq]
  · norm_num

/-- Claim C1 (amended): on every risk list of size at most 5 the function
returns the closed-form weighted average — sort descending by score, weight
by `[1.0, 0.7, 0.5, 0.3, 0.2]`, divide the weighted sum by the weight sum,
round to one decimal; the worked example `[90, 70, 50]` yields 74.5 and the
empty list yields 0. -/
theorem c1_weighted_average_closed_form :
    (∀ risks : List Risk, risks.length ≤ 5 →
      calculate_overall_risk_score risks = spec_overall_score risks) ∧
    calculate_overall_risk_score risks905070 = 149/2 ∧
    calculate_overall_risk_score [] = 0 := by
  refine ⟨?_, ?_, ?_⟩
  · intro risks h5
    by_cases hr : risks = []
    · simp [hr, calculate_overall_risk_score, spec_overall_score]
    · unfold calculate_overall_risk_score spec_overall_score
      rw [if_neg hr, if_neg hr]
      have hm5 : (sortDesc risks).length ≤ 5 := by
        rw [sortDesc_length]
        exact h5
      have hmne : sortDesc risks ≠ [] := by
        intro h
        have hlen := sortDesc_length risks
        rw [h] at hlen
        exact hr (List.length_eq_zero.mp hlen.symm)
      exact overall_core_eq_spec _ hm5 hmne
  · unfold calculate_overall_risk_score
    rw [if_neg (by simp [risks905070] : ¬risks905070 = [])]
    norm_num [sortDesc, insertDesc, loopSums, weights, risks905070,
      scoredRisk, round1, round_eq]
  · norm_num [calculate_overall_risk_score]

/-- Witness for C1 on the three-risk example list. -/
theorem c1_weighted_average_closed_form_witness :
    risks905070.length ≤ 5 ∧
    calculate_overall_risk_score risks905070 =
      spec_overall_score risks905070 :=
  ⟨by decide, c1_weighted_average_closed_form.1 risks905070 (by decide)⟩

/-- The single risk scoring 74.46, on which rounding pushes the overall
score above the maximum individual score. -/
def cexRisk : Risk := scoredRisk "c1" (3723/50)

/-- Counterexample to claim C9 as stated: the one-risk list scoring 74.46
(within `[0, 100]`) produces the overall score 74.5, which exceeds the
maximum individual risk score. -/
theorem c9_rounding_exceeds_max :
    (0 ≤ cexRisk.score ∧ cexRisk.score ≤ 100) ∧
    calculate_overall_risk_score [cexRisk] = 149/2 ∧
    ¬ calculate_overall_risk_score [cexRisk] ≤ cexRisk.score := by
  have hval : calculate_overall_risk_score [cexRisk] = 149/2 := by
    unfold calculate_overall_risk_score
    rw [if_neg (List.cons_ne_nil _ _)]
    norm_num [sortDesc, insertDesc, loopSums, weights, cexRisk,
      scoredRisk, round1, round_eq]
  refine ⟨by norm_num [cexRisk, scoredRisk], hval, ?_⟩
  rw [hval]
  norm_num [cexRisk, scoredRisk]

/-- Claim C9 (amended): for every nonempty risk list with all scores in
`[0, 100]`, the overall score lies in `[0, 100]` and never exceeds the
maximum individual risk score rounded to one decimal (the unrounded
weighted average cannot exceed the top score; the final rounding can add at
most 0.05). -/
theorem c9_amended_bounds (risks : List Risk) (M : ℚ)
    (hne : risks ≠ [])
    (hb : ∀ r ∈ risks, 0 ≤ r.score ∧ r.score ≤ 100)
    (hM : ∀ r ∈ risks, r.score ≤ M) :
    0 ≤ calculate_overall_risk_score risks ∧
    calculate_overall_risk_score risks ≤ 100 ∧
    calculate_overall_risk_score risks ≤ round1 M := by
  have hmem : ∀ r ∈ (sortDesc risks).take 5, r ∈ risks := fun r h =>
    mem_sortDesc (List.take_subset _ _ h)
  have hlne : (sortDesc risks).take 5 ≠ [] := by
    intro h
    have h1 := congrArg List.length h
    simp [List.length_take, sortDesc_length] at h1
    exact hne h1
  have ht : 0 < (loopSums ((sortDesc risks).take 5) 0).2 :=
    loopSums_t_pos _ 0 hlne
  have hval : calculate_overall_risk_score risks =
      round1 ((loopSums ((sortDesc risks).take 5) 0).1 /
        (loopSums ((sortDesc risks).take 5) 0).2) := by
    simp only [calculate_overall_risk_score]
    rw [if_neg hne, if_pos ht]
  have h0 : 0 ≤ (loopSums ((sortDesc risks).take 5) 0).1 /
      (loopSums ((sortDesc risks).take 5) 0).2 :=
    div_nonneg
      (loopSums_fst_nonneg _ 0 (fun r h => (hb r (hmem r h)).1)) ht.le
  have h100 : (loopSums ((sortDesc risks).take 5) 0).1 /
      (loopSums ((sortDesc risks).take 5) 0).2 ≤ 100 :=
    (div_le_iff₀ ht).mpr
      (loopSums_fst_le _ 100 0 (fun r h => (hb r (hmem r h)).2))
  have hXM : (loopSums ((sortDesc risks).take 5) 0).1 /
      (loopSums ((sortDesc risks).take 5) 0).2 ≤ M :=
    (div_le_iff₀ ht).mpr
      (loopSums_fst_le _ M 0 (fun r h => hM r (hmem r h)))
  rw [hval]
  refine ⟨?_, ?_, round1_mono hXM⟩
  · have h := round1_mono h0
    rw [round1_zero] at h
    exact h
  · have h := round1_mono h100
    rw [round1_hundred] at h
    exact h

/-- Witness for C9 on a concrete two-risk list with maximum score 90. -/
theorem c9_amended_bounds_witness :
    0 ≤ calculate_overall_risk_score
        [scoredRisk "w1" 90, scoredRisk "w2" 50] ∧
    calculate_overall_risk_score
        [scoredRisk "w1" 90, scoredRisk "w2" 50] ≤ 100 ∧
    calculate_overall_risk_score
        [scoredRisk "w1" 90, scoredRisk "w2" 50] ≤ round1 90 :=
  c9_amended_bounds [scoredRisk "w1" 90, scoredRisk "w2" 50] 90
    (by decide) (by decide) (by decide)

end LegalAssistant
